import Mathlib

/-!
# Verification of the TradeLib rebalancing engine and broker adapters

Shallow embedding of the parts of the TradeLib repository that the
specification talks about:

* `TradeHandlerService/TradeTranslator.py` — the rebalance engine
  (`TradeHandler.create_rebalance_frame`, `TradeHandler.create_trade_instructions`);
* `tradelib/model/portfolio.py` — `Portfolio.get_portfolio_weights`;
* `tradelib/model/order.py` — `Order.validate` / `__post_init__`,
  `Position.update`;
* `tradelib/trading/clients/alpaca.py` — `Alpaca.check_market_status`,
  `Alpaca.place_order`, `Alpaca.place_bulk_orders`;
* `TradeHandlerService/TradingBackends/LemonClass.py` — `Lemon.place_order`;
* `tradelib/trading/clients/sandbox.py` — `SandboxBackend._update_cash`.

Monetary amounts, prices and weights are modelled as rationals (`ℚ`).
Python code that can raise is modelled in `Except String`; `None` results
become `Option`.  Log output that matters to the specification (warning
diagnostics) is returned explicitly as a list of tags.
-/

namespace TradeLib

/-! ## Rebalance engine (`TradeHandlerService/TradeTranslator.py`)

`create_rebalance_frame` receives `portfolio_dict`, a dict keyed by
`asset_id` whose values carry at least a weight column `w` and a `symbol`
column.  The code renames `w` to `w_old`, re-indexes the frame by
`symbol`, outer-concatenates it with the target-weight frame (indexed by
the keys of `w_new`), fills missing cells with 0 and adds the `abs_old`,
`abs_new` and `delta` columns.  We model one value of `portfolio_dict` as
a `PortfolioEntry` and a row of the resulting frame as a `RebalanceRow`.
The union index is modelled as the old symbols followed by the new keys
not already present; none of the properties below depend on row order. -/

/-- One entry of the `portfolio_dict` argument of
`TradeHandler.create_rebalance_frame`: the dict key (`asset_id`) and the
`symbol` and `w` columns of its value that the code reads. -/
structure PortfolioEntry where
  asset_id : String
  symbol : String
  w : ℚ
deriving DecidableEq, Repr

/-- One row of the rebalance frame built by
`TradeHandler.create_rebalance_frame` (index value plus the columns
`w_old`, `w_new`, `abs_old`, `abs_new`, `delta`). -/
structure RebalanceRow where
  symbol : String
  w_old : ℚ
  w_new : ℚ
  abs_old : ℚ
  abs_new : ℚ
  delta : ℚ
deriving DecidableEq, Repr

/-- Alignment of the `w_new` column: the target weight of key `k`, with
missing keys filled by 0 (the `fillna(0)` after `pd.concat`). -/
def lookupW : List (String × ℚ) → String → ℚ
  | [], _ => 0
  | (a, v) :: rest, k => if k = a then v else lookupW rest k

/-- Alignment of the `w_old` column: the old weight of symbol `k`, with
missing symbols filled by 0 (the `fillna(0)` after `pd.concat`). -/
def lookupOld : List PortfolioEntry → String → ℚ
  | [], _ => 0
  | e :: rest, k => if k = e.symbol then e.w else lookupOld rest k

/-- The index of the concatenated frame: the union of the old symbols and
the target-weight keys. -/
def frameKeys (portfolio_dict : List PortfolioEntry)
    (w_new : List (String × ℚ)) : List String :=
  portfolio_dict.map PortfolioEntry.symbol ++
    (w_new.map Prod.fst).filter
      (fun k => decide (k ∉ portfolio_dict.map PortfolioEntry.symbol))

/-- `TradeHandler.create_rebalance_frame` (TradeTranslator.py lines 27-62):
per row, `abs_old = w_old * portfolio_value`,
`abs_new = w_new * (portfolio_value + add_value)`,
`delta = abs_new - abs_old`. -/
def TradeHandler.create_rebalance_frame (portfolio_dict : List PortfolioEntry)
    (portfolio_value : ℚ) (w_new : List (String × ℚ)) (add_value : ℚ) :
    List RebalanceRow :=
  (frameKeys portfolio_dict w_new).map (fun k =>
    let wo := lookupOld portfolio_dict k
    let wn := lookupW w_new k
    ({ symbol := k
       w_old := wo
       w_new := wn
       abs_old := wo * portfolio_value
       abs_new := wn * (portfolio_value + add_value)
       delta := wn * (portfolio_value + add_value) - wo * portfolio_value } :
      RebalanceRow))

/-- One element of the list returned by
`TradeHandler.create_trade_instructions`. -/
structure TradeInstruction where
  symbol : String
  side : String
  quantity : ℚ
  quantity_type : String
deriving DecidableEq, Repr

/-- `TradeHandler.create_trade_instructions` (TradeTranslator.py lines
64-95) applied to a computed rebalance frame: one instruction per row,
`side = "buy" if row["delta"] > 0 else "sell"`, `quantity = abs(delta)`,
`quantity_type = "value"`.  (The Python method reads the stored frame and
raises on a missing frame or a missing `delta` column; here the frame is
passed as a well-formed argument.) -/
def TradeHandler.create_trade_instructions (frame : List RebalanceRow) :
    List TradeInstruction :=
  frame.map (fun r =>
    let s := if r.delta > 0 then "buy" else "sell"
    ({ symbol := r.symbol
       side := s
       quantity := |r.delta|
       quantity_type := "value" } : TradeInstruction))

/-! ## Portfolio weights (`tradelib/model/portfolio.py`)

`Portfolio.get_portfolio_weights` builds a DataFrame from the positions,
sums the `market_value` column and divides the column by that sum with no
zero check.  A pandas/NumPy float division by zero does not raise: it
produces `NaN` for `0/0` and `±inf` otherwise.  `PdVal` models the value
of one cell of the resulting `w` column. -/

/-- A pandas float cell: a finite value, `NaN`, `inf` or `-inf`. -/
inductive PdVal where
  | num (q : ℚ)
  | nan
  | inf
  | negInf
deriving DecidableEq, Repr

/-- Pandas/NumPy elementwise float division `x / y`: division by zero
silently yields `NaN` (for `0/0`) or `±inf`, never an exception. -/
def pdDiv (x y : ℚ) : PdVal :=
  if y = 0 then
    (if x = 0 then PdVal.nan else if 0 < x then PdVal.inf else PdVal.negInf)
  else PdVal.num (x / y)

/-- Whether a pandas cell holds a finite value (neither `NaN` nor `±inf`). -/
def PdVal.isFinite : PdVal → Bool
  | PdVal.num _ => true
  | _ => false

/-- `Portfolio.get_portfolio_weights` (tradelib/model/portfolio.py lines
15-20): a position is reduced to its `asset_id` and `market_value`
columns; `pf_value` is the sum of market values and the returned mapping
carries `w = market_value / pf_value` per `asset_id`.  The Python body
contains no guard and no raise statement: it is a total function of the
positions, modelled by returning a plain list. -/
def Portfolio.get_portfolio_weights (positions : List (String × ℚ)) :
    List (String × PdVal) :=
  let pf_value := (positions.map Prod.snd).sum
  positions.map (fun p => (p.1, pdDiv p.2 pf_value))

/-! ## Order model (`tradelib/model/order.py`) -/

/-- `OrderSide` (tradelib/model/enums.py). -/
inductive OrderSide where
  | buy
  | sell
deriving DecidableEq, Repr

/-- `OrderType` (tradelib/model/enums.py). -/
inductive OrderType where
  | market
  | limit
  | stop
  | stop_limit
  | trailing_stop
deriving DecidableEq, Repr

/-- `QuantityMode` (tradelib/model/enums.py). -/
inductive QuantityMode where
  | shares
  | notional
deriving DecidableEq, Repr

/-- `Order` (tradelib/model/order.py): the fields `Order.validate` and the
adapters read.  The asset is collapsed to its symbol; prices and
quantities are rationals. -/
structure Order where
  symbol : String
  quantity : ℚ
  order_side : OrderSide
  quantity_mode : QuantityMode
  order_type : OrderType
  stop_price : Option ℚ
  limit_price : Option ℚ
deriving DecidableEq, Repr

/-- `some x` with `x < 0` (a present negative price). -/
def optNeg : Option ℚ → Bool
  | some x => decide (x < 0)
  | none => false

/-- `Order.validate` (tradelib/model/order.py lines 25-40): the exact
chain of `if`/`raise` checks, in source order. -/
def Order.validate (o : Order) : Except String Unit :=
  if o.quantity < 0 then Except.error "Order quantity must be positive"
  else if optNeg o.limit_price then Except.error "Limit price must be positive"
  else if optNeg o.stop_price then Except.error "Stop price must be positive"
  else if o.order_type = OrderType.limit ∧ o.limit_price = none then
    Except.error "Limit order requires a limit price"
  else if o.order_type = OrderType.stop ∧ o.stop_price = none then
    Except.error "Stop order requires a stop price"
  else if o.order_type = OrderType.stop_limit ∧
      (o.stop_price = none ∨ o.limit_price = none) then
    Except.error "Stop-limit order requires both stop and limit prices"
  else Except.ok ()

/-- `Order.__post_init__` (tradelib/model/order.py lines 42-47):
construction runs `validate` and raises its error, so an `Order` is only
obtained when `validate` passes.  (The subsequent enum coercions are
identities in this typed embedding.) -/
def mkOrder (o : Order) : Except String Order :=
  match o.validate with
  | Except.error e => Except.error e
  | Except.ok _ => Except.ok o

/-- `Trade` (tradelib/model/order.py lines 53-66): the fields
`Position.update` and `SandboxBackend._update_cash` read. -/
structure Trade where
  order : Order
  execution_price : ℚ
  execution_quantity : ℚ
  fees : ℚ
deriving DecidableEq, Repr

/-- `Position` (tradelib/model/order.py lines 83-88).  The asset is
collapsed to its symbol; `metadata` is an opaque association list. -/
structure Position where
  symbol : String
  quantity : ℚ
  average_price : ℚ
  metadata : List (String × String)
deriving DecidableEq, Repr

/-- `Position.update` (tradelib/model/order.py lines 90-102).  On a buy,
the quantity grows and the average price is re-averaged (Python raises
`ZeroDivisionError` when the resulting quantity is zero); on a sell the
quantity shrinks and the average price is reset to 0 exactly when the
resulting quantity is zero, otherwise left unchanged. -/
def Position.update (p : Position) (t : Trade) : Except String Position :=
  if t.order.order_side = OrderSide.buy then
    let total_cost := p.average_price * p.quantity
    let trade_cost := t.execution_price * t.execution_quantity
    let new_quantity := p.quantity + t.execution_quantity
    if new_quantity = 0 then Except.error "ZeroDivisionError"
    else Except.ok { p with
      quantity := new_quantity
      average_price := (total_cost + trade_cost) / new_quantity }
  else
    let new_quantity := p.quantity - t.execution_quantity
    Except.ok { p with
      quantity := new_quantity
      average_price := if new_quantity = 0 then 0 else p.average_price }

/-! ## Bulk order placement (`tradelib/trading/clients/alpaca.py` line 239,
and the same loop shape in `LemonClass.place_multi_order` and
`alpaca_class.place_multi_order`)

`place_bulk_orders` is the list comprehension
`[self.place_order(order, **kwargs) for order in orders]`: the orders are
placed sequentially and an exception from one placement propagates,
aborting the comprehension.  The placement of a single order is an
external effect, abstracted as a function into `Except`. -/

/-- `Alpaca.place_bulk_orders` (tradelib/trading/clients/alpaca.py lines
229-241): sequential placement with Python exception propagation. -/
def Alpaca.place_bulk_orders {α β ε : Type} (place : α → Except ε β) :
    List α → Except ε (List β)
  | [] => Except.ok []
  | o :: rest =>
    match place o with
    | Except.error e => Except.error e
    | Except.ok r =>
      match Alpaca.place_bulk_orders place rest with
      | Except.error e => Except.error e
      | Except.ok rs => Except.ok (r :: rs)

/-- A single-order placer for which the order "MSFT" fails with a raised
exception (e.g. a broker API error), as in the spec scenario of a batch
whose second order fails. -/
def examplePlace : String → Except String String :=
  fun s => if s = "MSFT" then Except.error "insufficient inventory"
           else Except.ok s

/-! ## Lemon sell clamping (`TradeHandlerService/TradingBackends/LemonClass.py`)

`Lemon.place_order` validates its arguments, translates a notional
`value` quantity into a number of stocks via market data
(`value_to_amount`, abstracted as a function argument), clamps sell
orders to the available position quantity with a warning, and dismisses
orders whose amount is `≤ 0` with a warning (returning `None` instead of
submitting).  Warnings are returned explicitly as a list of tags. -/

/-- The order record `Lemon.place_order` submits to the broker. -/
structure LemonOrder where
  isin : String
  side : String
  quantity : ℚ
deriving DecidableEq, Repr

/-- `pf_dict.get(isin)["quantity"]`: the available quantity of `isin` in
the portfolio dict, if the isin is present. -/
def lookupQuantity : List (String × ℚ) → String → Option ℚ
  | [], _ => none
  | (a, v) :: rest, k => if k = a then some v else lookupQuantity rest k

/-- Warning tag for the sell clamp (LemonClass.py lines 197-198). -/
def warnClamped : String := "order quantity exceeds available amount; adjusted to maximum available amount"

/-- Warning tag for a dismissed order (LemonClass.py lines 202-203). -/
def warnDismissed : String := "order quantity is less than or equal to zero; order will be dismissed"

/-- `Lemon.place_order` (LemonClass.py lines 142-225).  The result is
`(warnings, some order)` for a submitted order and `(warnings, none)` for
a dismissed one; a raised Python exception is `Except.error`.
`value_to_amount` (market-data dependent) is passed as a function. -/
def Lemon.place_order (value_to_amount : String → String → ℚ → ℚ)
    (isin : String) (side : String) (quantity : ℚ) (quantity_type : String)
    (pf_dict : List (String × ℚ)) :
    Except String (List String × Option LemonOrder) :=
  if ¬(side = "buy" ∨ side = "sell") then
    Except.error "side must be either buy or sell"
  else if quantity < 0 then
    Except.error "quantity must be a positive number"
  else if ¬(quantity_type = "amount" ∨ quantity_type = "value") then
    Except.error "quantity_type must be either amount or value"
  else
    let order_amount :=
      if quantity_type = "amount" then quantity
      else value_to_amount isin side quantity
    let clamp : Except String (List String × ℚ) :=
      if side = "sell" then
        match lookupQuantity pf_dict isin with
        | none => Except.error "TypeError: NoneType object is not subscriptable"
        | some amount_available =>
          if order_amount > amount_available then
            Except.ok ([warnClamped], amount_available)
          else Except.ok ([], order_amount)
      else Except.ok ([], order_amount)
    match clamp with
    | Except.error e => Except.error e
    | Except.ok (warns, amount) =>
      if amount ≤ 0 then Except.ok (warns ++ [warnDismissed], none)
      else Except.ok (warns, some { isin := isin, side := side, quantity := amount })

/-! ## Market-hours gating (`tradelib/trading/clients/alpaca.py`)

`Alpaca.check_market_status` reads the broker clock; the clock state
(`is_open`, seconds to next close, seconds to next open) and the
per-instance policy (`market_close_handle`, `market_close_offset`) are
the inputs of the embedded decision. -/

/-- What `Alpaca.check_market_status` does: return normally, sleep until
the next open, or raise. -/
inductive MarketAction where
  | proceed
  | wait (seconds : ℚ)
  | raiseClosed
deriving DecidableEq, Repr

/-- `Alpaca.check_market_status` (alpaca.py lines 100-120): open markets
that do not close within `market_close_offset` minutes proceed; otherwise
the per-instance `market_close_handle` selects waiting, raising or
ignoring.  The `"ignore"` branch only logs; a value other than the three
documented ones also falls through (the chain has no final `else`). -/
def Alpaca.check_market_status (is_open : Bool)
    (next_close_seconds next_open_seconds : ℚ)
    (market_close_handle : String) (market_close_offset : ℚ) : MarketAction :=
  if is_open = true ∧ market_close_offset * 60 < next_close_seconds then
    MarketAction.proceed
  else if market_close_handle = "wait" then
    MarketAction.wait next_open_seconds
  else if market_close_handle = "raise" then
    MarketAction.raiseClosed
  else MarketAction.proceed

/-- The `ValueError` raised by the `"raise"` branch of
`check_market_status` (alpaca.py lines 114-117). -/
def marketClosedError : String :=
  "ValueError: Market is closed, cannot place order till next open"

/-- A Python `Enum` member, identified by its enum class and its member
value.  Python compares `Enum` members by object identity: members of
two distinct enum classes are never equal, even when their values
coincide.  This also holds when exactly one of the classes mixes in
`str` (as alpaca-py enums do): `str.__eq__` returns `NotImplemented` on
a non-`str` operand and the plain `Enum` side inherits `object.__eq__`
(identity), so the comparison falls back to identity and fails.  Two
members are therefore equal exactly when class and value both agree. -/
structure PyEnumMember where
  enum_class : String
  value : String
deriving DecidableEq, Repr

/-- The Python member held by `order.order_side`.  `Order.__post_init__`
(tradelib/model/order.py line 44) runs
`self.order_side = OrderSide(self.order_side)` with the `OrderSide`
imported from `tradelib.model.enums`, so after construction the field
is always a member of the TradeLib enum class (a caller-supplied string
or alpaca-py member is converted by the value lookup). -/
def OrderSide.pyMember : OrderSide → PyEnumMember
  | OrderSide.buy =>
    { enum_class := "tradelib.model.enums.OrderSide", value := "buy" }
  | OrderSide.sell =>
    { enum_class := "tradelib.model.enums.OrderSide", value := "sell" }

/-- `OrderSide.SELL` as the module `tradelib/trading/clients/alpaca.py`
resolves it: line 9 of that file imports `OrderSide` from
`alpaca.trading.enums` (the alpaca-py SDK, a `str`-mixin enum), not
from `tradelib.model.enums`. -/
def alpacaEnumOrderSideSell : PyEnumMember :=
  { enum_class := "alpaca.trading.enums.OrderSide", value := "sell" }

/-- `Alpaca._check_sell_all_order` (alpaca.py lines 291-302).  The guard
`if order.order_side != OrderSide.SELL: return False` compares the
TradeLib member carried by the order against the alpaca-py member named
in this module — two distinct enum classes, hence never equal (see
`PyEnumMember`) — so the guard fires for every order, buys and sells
alike, and the method returns `False` without executing the rest of its
body.  The remaining lines (`pos = self.get_specific_position(...)`,
`order.symbol`) would raise `AttributeError` — this class defines only
`get_position`, and the TradeLib `Order` has an `asset` but no `symbol`
attribute — but they are unreachable. -/
def Alpaca.check_sell_all_order (order_side : OrderSide) :
    Except String Bool :=
  if order_side.pyMember ≠ alpacaEnumOrderSideSell then Except.ok false
  else Except.error
    "AttributeError: Alpaca object has no attribute get_specific_position"

/-- Outcome of a `place_order` call that reaches the broker: `waited`
records whether the call slept until the next market open first. -/
inductive PlaceOrderOutcome where
  | submitted (waited : Bool)
deriving DecidableEq, Repr

/-- The pre-submission skeleton of `Alpaca.place_order` (alpaca.py lines
189-227): after quantity translation the call runs
`_check_sell_all_order(order)`; a raised exception there would
propagate, and on both resulting paths (`close_position` for a sell-all
order, `submit_order` otherwise) `check_market_status()` runs
immediately before the broker call, so a raising gate prevents the
submission.  Python exceptions are the `Except.error` channel. -/
def Alpaca.place_order_gate (order_side : OrderSide) (is_open : Bool)
    (next_close_seconds next_open_seconds : ℚ)
    (market_close_handle : String) (market_close_offset : ℚ) :
    Except String PlaceOrderOutcome :=
  match Alpaca.check_sell_all_order order_side with
  | Except.error e => Except.error e
  | Except.ok _sell_all =>
    match Alpaca.check_market_status is_open next_close_seconds
        next_open_seconds market_close_handle market_close_offset with
    | MarketAction.proceed => Except.ok (PlaceOrderOutcome.submitted false)
    | MarketAction.wait _ => Except.ok (PlaceOrderOutcome.submitted true)
    | MarketAction.raiseClosed => Except.error marketClosedError

/-! ## Sandbox cash update (`tradelib/trading/clients/sandbox.py`) -/

/-- `SandboxBackend._update_cash` (sandbox.py lines 190-196):
`total_cost = execution_price * execution_quantity + fees`; a buy debits
it from the cash balance, anything else (a sell) credits it. -/
def SandboxBackend.update_cash (cash : ℚ) (trade : Trade) : ℚ :=
  let total_cost := trade.execution_price * trade.execution_quantity + trade.fees
  if trade.order.order_side = OrderSide.buy then cash - total_cost
  else cash + total_cost

/-! ### Lemmas about the alignment lookups and the frame index -/

theorem lookupW_eq_zero_of_not_mem (l : List (String × ℚ)) (k : String)
    (h : k ∉ l.map Prod.fst) : lookupW l k = 0 := by
  induction l with
  | nil => rfl
  | cons p rest ih =>
    obtain ⟨a, v⟩ := p
    simp only [List.map_cons, List.mem_cons] at h
    push_neg at h
    simp [lookupW, h.1, ih h.2]

theorem lookupOld_eq_zero_of_not_mem (l : List PortfolioEntry) (k : String)
    (h : k ∉ l.map PortfolioEntry.symbol) : lookupOld l k = 0 := by
  induction l with
  | nil => rfl
  | cons e rest ih =>
    simp only [List.map_cons, List.mem_cons] at h
    push_neg at h
    simp [lookupOld, h.1, ih h.2]

/-- Summing the aligned `w_new` column over a duplicate-free index that
contains every target key recovers the sum of the target weights. -/
theorem sum_map_lookupW (l : List (String × ℚ)) (rows : List String)
    (hrows : rows.Nodup) (hkeys : (l.map Prod.fst).Nodup)
    (hsub : ∀ k ∈ l.map Prod.fst, k ∈ rows) :
    (rows.map (lookupW l)).sum = (l.map Prod.snd).sum := by
  induction l generalizing rows with
  | nil =>
    have h0 : rows.map (lookupW []) = rows.map (fun _ => (0 : ℚ)) :=
      List.map_congr_left (fun a _ => rfl)
    simp [h0]
  | cons p rest ih =>
    obtain ⟨a, v⟩ := p
    simp only [List.map_cons] at hkeys hsub
    obtain ⟨ha_not, hrest⟩ := List.nodup_cons.mp hkeys
    have ha_rows : a ∈ rows := hsub a (List.mem_cons_self _ _)
    have hperm : rows.Perm (a :: rows.erase a) := List.perm_cons_erase ha_rows
    have hsum_perm : (rows.map (lookupW ((a, v) :: rest))).sum
        = ((a :: rows.erase a).map (lookupW ((a, v) :: rest))).sum :=
      (hperm.map _).sum_eq
    have h1 : lookupW ((a, v) :: rest) a = v := by simp [lookupW]
    have h2 : (rows.erase a).map (lookupW ((a, v) :: rest))
        = (rows.erase a).map (lookupW rest) := by
      refine List.map_congr_left (fun k hk => ?_)
      have hne : k ≠ a := (hrows.mem_erase_iff.mp hk).1
      simp [lookupW, hne]
    have hsub' : ∀ k ∈ rest.map Prod.fst, k ∈ rows.erase a := by
      intro k hk
      have hkr : k ∈ rows := hsub k (List.mem_cons_of_mem _ hk)
      have hne : k ≠ a := fun h => ha_not (h ▸ hk)
      exact (List.mem_erase_of_ne hne).mpr hkr
    rw [hsum_perm]
    simp only [List.map_cons, List.sum_cons, h1, h2,
      ih (rows.erase a) (hrows.erase a) hrest hsub']

theorem mem_frameKeys (pd : List PortfolioEntry) (wn : List (String × ℚ))
    (k : String) : k ∈ frameKeys pd wn ↔
      k ∈ pd.map PortfolioEntry.symbol ∨ k ∈ wn.map Prod.fst := by
  simp only [frameKeys, List.mem_append, List.mem_filter, decide_eq_true_eq]
  by_cases h : k ∈ pd.map PortfolioEntry.symbol
  · simp [h]
  · simp [h]

theorem frameKeys_nodup (pd : List PortfolioEntry) (wn : List (String × ℚ))
    (hold : (pd.map PortfolioEntry.symbol).Nodup)
    (hnew : (wn.map Prod.fst).Nodup) : (frameKeys pd wn).Nodup := by
  refine List.Nodup.append hold (hnew.filter _) ?_
  intro k hk1 hk2
  simp only [List.mem_filter, decide_eq_true_eq] at hk2
  exact hk2.2 hk1

/-- Sum pulls a constant factor out of a mapped list. -/
theorem sum_map_mul_right_q (rows : List String) (f : String → ℚ) (c : ℚ) :
    (rows.map (fun k => f k * c)).sum = (rows.map f).sum * c := by
  induction rows with
  | nil => simp
  | cons a l ih => simp [ih, add_mul]

theorem map_symbol_create_rebalance_frame (pd : List PortfolioEntry)
    (pv : ℚ) (wn : List (String × ℚ)) (av : ℚ) :
    (TradeHandler.create_rebalance_frame pd pv wn av).map RebalanceRow.symbol
      = frameKeys pd wn := by
  rw [TradeHandler.create_rebalance_frame, List.map_map]
  have h : (RebalanceRow.symbol ∘ fun k =>
      let wo := lookupOld pd k
      let wn' := lookupW wn k
      ({ symbol := k, w_old := wo, w_new := wn', abs_old := wo * pv,
         abs_new := wn' * (pv + av),
         delta := wn' * (pv + av) - wo * pv } : RebalanceRow)) = id :=
    funext fun _ => rfl
  rw [h, List.map_id]

theorem mem_create_rebalance_frame (pd : List PortfolioEntry) (pv : ℚ)
    (wn : List (String × ℚ)) (av : ℚ) (r : RebalanceRow)
    (hr : r ∈ TradeHandler.create_rebalance_frame pd pv wn av) :
    r.w_old = lookupOld pd r.symbol ∧ r.w_new = lookupW wn r.symbol := by
  simp only [TradeHandler.create_rebalance_frame, List.mem_map] at hr
  obtain ⟨k, _, rfl⟩ := hr
  exact ⟨rfl, rfl⟩

/-! ### Claim C1 -/

/-- C1: for every `portfolio_dict`, `portfolio_value`, target-weight map
`w_new` and `add_value`, if the target weights in `w_new` sum to 1, then
the sum of the `abs_new` column over all rows of the frame returned by
`TradeHandler.create_rebalance_frame` equals
`portfolio_value + add_value`.  (The inputs are Python dicts re-indexed
by symbol, so the symbol columns are duplicate-free.) -/
theorem create_rebalance_frame_sum_abs_new
    (portfolio_dict : List PortfolioEntry) (portfolio_value : ℚ)
    (w_new : List (String × ℚ)) (add_value : ℚ)
    (hold : (portfolio_dict.map PortfolioEntry.symbol).Nodup)
    (hnew : (w_new.map Prod.fst).Nodup)
    (hsum : (w_new.map Prod.snd).sum = 1) :
    ((TradeHandler.create_rebalance_frame portfolio_dict portfolio_value
        w_new add_value).map RebalanceRow.abs_new).sum
      = portfolio_value + add_value := by
  have hmap : (TradeHandler.create_rebalance_frame portfolio_dict
        portfolio_value w_new add_value).map RebalanceRow.abs_new
      = (frameKeys portfolio_dict w_new).map
          (fun k => lookupW w_new k * (portfolio_value + add_value)) := by
    rw [TradeHandler.create_rebalance_frame, List.map_map]
    exact List.map_congr_left (fun k _ => rfl)
  rw [hmap, sum_map_mul_right_q,
    sum_map_lookupW w_new (frameKeys portfolio_dict w_new)
      (frameKeys_nodup _ _ hold hnew) hnew
      (fun k hk => (mem_frameKeys _ _ k).mpr (Or.inr hk)),
    hsum, one_mul]

/-- Witness for C1: the scenario from the spec
(`old = {AAPL: 0.6, MSFT: 0.4}`, `total_value = 1000`,
`target = {AAPL: 0.3, MSFT: 0.3, GOOG: 0.4}`, `add_value = 0`). -/
theorem create_rebalance_frame_sum_abs_new_witness :
    ((TradeHandler.create_rebalance_frame
        [⟨"US0378331005", "AAPL", 3/5⟩, ⟨"US5949181045", "MSFT", 2/5⟩]
        1000 [("AAPL", 3/10), ("MSFT", 3/10), ("GOOG", 2/5)] 0).map
      RebalanceRow.abs_new).sum = 1000 + 0 :=
  create_rebalance_frame_sum_abs_new _ _ _ _
    (by decide) (by decide) (by norm_num)

/-! ### Claim C2 -/

/-- C2: every asset key present in either input appears exactly once as a
row of the frame (the row index is duplicate-free and ranges over exactly
the union of the two key sets), and a key missing from one side gets
weight 0 on that side. -/
theorem create_rebalance_frame_row_keys
    (portfolio_dict : List PortfolioEntry) (portfolio_value : ℚ)
    (w_new : List (String × ℚ)) (add_value : ℚ)
    (hold : (portfolio_dict.map PortfolioEntry.symbol).Nodup)
    (hnew : (w_new.map Prod.fst).Nodup) :
    ((TradeHandler.create_rebalance_frame portfolio_dict portfolio_value
        w_new add_value).map RebalanceRow.symbol).Nodup ∧
    (∀ k : String,
      k ∈ (TradeHandler.create_rebalance_frame portfolio_dict
            portfolio_value w_new add_value).map RebalanceRow.symbol ↔
        (k ∈ portfolio_dict.map PortfolioEntry.symbol ∨
          k ∈ w_new.map Prod.fst)) ∧
    (∀ r ∈ TradeHandler.create_rebalance_frame portfolio_dict
        portfolio_value w_new add_value,
      (r.symbol ∉ portfolio_dict.map PortfolioEntry.symbol → r.w_old = 0) ∧
      (r.symbol ∉ w_new.map Prod.fst → r.w_new = 0)) := by
  rw [map_symbol_create_rebalance_frame]
  refine ⟨frameKeys_nodup _ _ hold hnew, fun k => mem_frameKeys _ _ k, ?_⟩
  intro r hr
  obtain ⟨h1, h2⟩ :=
    mem_create_rebalance_frame portfolio_dict portfolio_value w_new
      add_value r hr
  constructor
  · intro h
    rw [h1]
    exact lookupOld_eq_zero_of_not_mem _ _ h
  · intro h
    rw [h2]
    exact lookupW_eq_zero_of_not_mem _ _ h

/-- Witness for C2 at the spec scenario inputs. -/
theorem create_rebalance_frame_row_keys_witness :
    ((TradeHandler.create_rebalance_frame
        [⟨"US0378331005", "AAPL", 3/5⟩, ⟨"US5949181045", "MSFT", 2/5⟩]
        1000 [("AAPL", 3/10), ("MSFT", 3/10), ("GOOG", 2/5)] 0).map
      RebalanceRow.symbol).Nodup ∧
    (∀ k : String,
      k ∈ (TradeHandler.create_rebalance_frame
            [⟨"US0378331005", "AAPL", 3/5⟩, ⟨"US5949181045", "MSFT", 2/5⟩]
            1000 [("AAPL", 3/10), ("MSFT", 3/10), ("GOOG", 2/5)] 0).map
          RebalanceRow.symbol ↔
        (k ∈ [⟨"US0378331005", "AAPL", 3/5⟩,
              ⟨"US5949181045", "MSFT", 2/5⟩].map PortfolioEntry.symbol ∨
          k ∈ [("AAPL", (3:ℚ)/10), ("MSFT", 3/10), ("GOOG", 2/5)].map
            Prod.fst)) ∧
    (∀ r ∈ TradeHandler.create_rebalance_frame
        [⟨"US0378331005", "AAPL", 3/5⟩, ⟨"US5949181045", "MSFT", 2/5⟩]
        1000 [("AAPL", 3/10), ("MSFT", 3/10), ("GOOG", 2/5)] 0,
      (r.symbol ∉ [⟨"US0378331005", "AAPL", 3/5⟩,
          ⟨"US5949181045", "MSFT", 2/5⟩].map PortfolioEntry.symbol →
          r.w_old = 0) ∧
      (r.symbol ∉ [("AAPL", (3:ℚ)/10), ("MSFT", 3/10), ("GOOG", 2/5)].map
          Prod.fst → r.w_new = 0)) :=
  create_rebalance_frame_row_keys _ _ _ _ (by decide) (by decide)

/-! ### Claim C3

The source emits an instruction for every row of the frame:
`"side": "buy" if row["delta"] > 0 else "sell"` — a row with
`delta == 0` is not skipped, it produces a `"sell"` instruction with
quantity 0. -/

/-- C3 counterexample: a frame whose single row has `delta = 0` still
produces an instruction (side `"sell"`, quantity `0`), refuting
"emits no instruction for rows with delta == 0". -/
theorem create_trade_instructions_zero_delta_counterexample :
    TradeHandler.create_trade_instructions [⟨"AAPL", 0, 0, 0, 0, 0⟩]
      = [⟨"AAPL", "sell", 0, "value"⟩] := rfl

/-- C3 (amended): `create_trade_instructions` emits exactly one
instruction per row of the frame — side `"buy"` for `delta > 0` and
`"sell"` otherwise, so a zero-delta row yields a `"sell"` instruction
with quantity `0` rather than being skipped — with
`quantity = |delta|` and notional (`"value"`) quantity mode. -/
theorem create_trade_instructions_per_row (frame : List RebalanceRow) :
    (TradeHandler.create_trade_instructions frame).length = frame.length ∧
    ∀ r ∈ frame, ∃ t ∈ TradeHandler.create_trade_instructions frame,
      t.symbol = r.symbol ∧ t.quantity = |r.delta| ∧
      t.quantity_type = "value" ∧
      (0 < r.delta → t.side = "buy") ∧
      (r.delta < 0 → t.side = "sell") ∧
      (r.delta = 0 → t.side = "sell" ∧ t.quantity = 0) := by
  refine ⟨by simp [TradeHandler.create_trade_instructions], ?_⟩
  intro r hr
  refine ⟨_, List.mem_map_of_mem _ hr, rfl, rfl, rfl, ?_, ?_, ?_⟩
  · intro h
    show (if r.delta > 0 then "buy" else "sell") = "buy"
    exact if_pos h
  · intro h
    show (if r.delta > 0 then "buy" else "sell") = "sell"
    exact if_neg (asymm h)
  · intro h
    constructor
    · show (if r.delta > 0 then "buy" else "sell") = "sell"
      rw [h]
      simp
    · show |r.delta| = 0
      rw [h]
      exact abs_zero

/-- Witness for C3 (amended) at a one-row frame with `delta = -600`. -/
theorem create_trade_instructions_per_row_witness :
    (TradeHandler.create_trade_instructions
        [⟨"AAPL", 1, 0, 600, 0, -600⟩]).length
      = ([⟨"AAPL", 1, 0, 600, 0, -600⟩] : List RebalanceRow).length ∧
    ∃ t ∈ TradeHandler.create_trade_instructions
        [⟨"AAPL", 1, 0, 600, 0, -600⟩],
      t.symbol = "AAPL" ∧ t.quantity = |(-600 : ℚ)| ∧
      t.quantity_type = "value" ∧
      ((0 : ℚ) < -600 → t.side = "buy") ∧
      ((-600 : ℚ) < 0 → t.side = "sell") ∧
      ((-600 : ℚ) = 0 → t.side = "sell" ∧ t.quantity = 0) :=
  ⟨(create_trade_instructions_per_row [⟨"AAPL", 1, 0, 600, 0, -600⟩]).1,
   (create_trade_instructions_per_row [⟨"AAPL", 1, 0, 600, 0, -600⟩]).2
     ⟨"AAPL", 1, 0, 600, 0, -600⟩ (List.mem_cons_self _ _)⟩

/-! ### Claim C4

`Portfolio.get_portfolio_weights` contains no zero-total guard and no
raise: with a zero total value the pandas division silently yields
`NaN`/`±inf` weights, contradicting the specified defined failure. -/

/-- C4 (divergence evidence): whenever the total portfolio value is 0,
`get_portfolio_weights` returns normally and every weight it returns is
non-finite (`NaN` or `±inf`) — no error is ever raised. -/
theorem get_portfolio_weights_zero_total (positions : List (String × ℚ))
    (h : (positions.map Prod.snd).sum = 0) :
    ∀ p ∈ Portfolio.get_portfolio_weights positions,
      p.2.isFinite = false := by
  intro p hp
  simp only [Portfolio.get_portfolio_weights, List.mem_map] at hp
  obtain ⟨q, _, rfl⟩ := hp
  show (pdDiv q.2 ((positions.map Prod.snd).sum)).isFinite = false
  rw [h]
  by_cases hq2 : q.2 = 0
  · simp [pdDiv, hq2, PdVal.isFinite]
  · by_cases hpos : 0 < q.2
    · simp [pdDiv, hq2, hpos, PdVal.isFinite]
    · simp [pdDiv, hq2, hpos, PdVal.isFinite]

/-- Witness for C4 at the failing input: one position with market value
0; its weight (the single entry of the returned mapping) comes back
non-finite (`NaN`), not an error. -/
theorem get_portfolio_weights_zero_total_witness :
    (pdDiv 0
        ((List.map Prod.snd [("US0378331005", (0 : ℚ))]).sum)).isFinite
      = false :=
  get_portfolio_weights_zero_total [("US0378331005", (0 : ℚ))] (by simp)
    ("US0378331005",
      pdDiv 0 ((List.map Prod.snd [("US0378331005", (0 : ℚ))]).sum))
    (List.mem_cons_self _ _)

/-! ### Claim C5

`place_bulk_orders` is `[self.place_order(o, **kwargs) for o in orders]`
with no per-order exception handling: an exception raised for one order
aborts the batch and the remaining orders are never attempted. -/

/-- C5 counterexample: with a placer that raises on `"MSFT"`, a batch of
three orders returns the raised exception — not one result per order
with the failure recorded in the second result. -/
theorem place_bulk_orders_counterexample :
    Alpaca.place_bulk_orders examplePlace ["AAPL", "MSFT", "GOOG"]
      = Except.error "insufficient inventory" := rfl

/-- C5 (amended): orders are placed sequentially; when every placement
succeeds the batch returns one result per input order, but the first
raised exception aborts the whole batch (later orders are not
attempted and no per-order results are returned). -/
theorem place_bulk_orders_sequential {α β ε : Type} (place : α → Except ε β) :
    (∀ orders : List α, (∀ o ∈ orders, ∃ r, place o = Except.ok r) →
      ∃ results : List β,
        Alpaca.place_bulk_orders place orders = Except.ok results ∧
        results.length = orders.length) ∧
    (∀ (o : α) (rest : List α) (e : ε), place o = Except.error e →
      Alpaca.place_bulk_orders place (o :: rest) = Except.error e) := by
  constructor
  · intro orders h
    induction orders with
    | nil => exact ⟨[], rfl, rfl⟩
    | cons o rest ih =>
      obtain ⟨r, hr⟩ := h o (List.mem_cons_self _ _)
      obtain ⟨rs, hrs, hlen⟩ :=
        ih (fun o' ho' => h o' (List.mem_cons_of_mem _ ho'))
      refine ⟨r :: rs, ?_, by simp [hlen]⟩
      simp [Alpaca.place_bulk_orders, hr, hrs]
  · intro o rest e he
    simp [Alpaca.place_bulk_orders, he]

/-- Witness for C5 (amended): an all-good batch returns two results; a
batch whose first order raises returns the exception. -/
theorem place_bulk_orders_sequential_witness :
    (∃ results : List String,
      Alpaca.place_bulk_orders examplePlace ["AAPL", "GOOG"]
          = Except.ok results ∧
      results.length = (["AAPL", "GOOG"] : List String).length) ∧
    Alpaca.place_bulk_orders examplePlace ["MSFT", "AAPL"]
      = Except.error "insufficient inventory" :=
  ⟨(place_bulk_orders_sequential examplePlace).1 ["AAPL", "GOOG"]
      (by intro o ho
          simp only [List.mem_cons, List.not_mem_nil, or_false] at ho
          rcases ho with rfl | rfl <;> exact ⟨_, rfl⟩),
   (place_bulk_orders_sequential examplePlace).2 "MSFT" ["AAPL"] _ rfl⟩

/-! ### Claim C6 -/

/-- C6: a sell order whose (translated) amount exceeds the available
position quantity is clamped to exactly the available amount with a
warning and no exception; if the clamped amount is `≤ 0` the order is
dismissed (`none`) with a further warning, again without raising. -/
theorem lemon_place_order_sell_clamp
    (value_to_amount : String → String → ℚ → ℚ)
    (isin : String) (quantity : ℚ) (quantity_type : String)
    (pf_dict : List (String × ℚ)) (amount_available : ℚ)
    (hqt : quantity_type = "amount" ∨ quantity_type = "value")
    (hq : 0 ≤ quantity)
    (havail : lookupQuantity pf_dict isin = some amount_available)
    (hexceed : amount_available <
      (if quantity_type = "amount" then quantity
       else value_to_amount isin "sell" quantity)) :
    Lemon.place_order value_to_amount isin "sell" quantity quantity_type
        pf_dict
      = (if amount_available ≤ 0 then
          Except.ok ([warnClamped, warnDismissed], none)
        else
          Except.ok ([warnClamped],
            some { isin := isin, side := "sell",
                   quantity := amount_available })) := by
  rcases hqt with hqt | hqt <;> subst hqt <;>
    by_cases hz : amount_available ≤ 0 <;>
      simp_all [Lemon.place_order, not_lt.mpr hq, hexceed, havail]

/-- Witness for C6: selling 15 units with only 10 available submits
exactly 10 with a clamp warning. -/
theorem lemon_place_order_sell_clamp_witness :
    Lemon.place_order (fun _ _ v => v) "DE0001" "sell" 15 "amount"
        [("DE0001", 10)]
      = Except.ok ([warnClamped],
          some { isin := "DE0001", side := "sell", quantity := 10 }) := by
  have h := lemon_place_order_sell_clamp (fun _ _ v => v) "DE0001" 15
    "amount" [("DE0001", 10)] 10 (Or.inl rfl) (by norm_num) rfl
    (by norm_num)
  rwa [if_neg (by norm_num : ¬((10 : ℚ) ≤ 0))] at h

/-! ### Claim C7 -/

/-- C7: for every order side — sells included, because
`_check_sell_all_order` returns `False` for every order (its mixed-enum
guard never matches, so its dead `AttributeError` lines are never
reached) — a market that is open and not closing within the offset
buffer submits without waiting; otherwise the per-instance
`market_close_handle` selects the outcome: `"raise"` raises before any
broker submission, `"wait"` blocks until the next open and then
submits, `"ignore"` submits anyway. -/
theorem place_order_market_gate (order_side : OrderSide) (is_open : Bool)
    (next_close_seconds next_open_seconds : ℚ)
    (market_close_handle : String) (market_close_offset : ℚ) :
    Alpaca.check_sell_all_order order_side = Except.ok false ∧
    ((is_open = true ∧ market_close_offset * 60 < next_close_seconds) →
      Alpaca.place_order_gate order_side is_open next_close_seconds
          next_open_seconds market_close_handle market_close_offset
        = Except.ok (PlaceOrderOutcome.submitted false)) ∧
    (¬(is_open = true ∧ market_close_offset * 60 < next_close_seconds) →
      (market_close_handle = "raise" →
        Alpaca.place_order_gate order_side is_open next_close_seconds
            next_open_seconds market_close_handle market_close_offset
          = Except.error marketClosedError) ∧
      (market_close_handle = "wait" →
        Alpaca.place_order_gate order_side is_open next_close_seconds
            next_open_seconds market_close_handle market_close_offset
          = Except.ok (PlaceOrderOutcome.submitted true)) ∧
      (market_close_handle = "ignore" →
        Alpaca.place_order_gate order_side is_open next_close_seconds
            next_open_seconds market_close_handle market_close_offset
          = Except.ok (PlaceOrderOutcome.submitted false))) := by
  have hcs : Alpaca.check_sell_all_order order_side = Except.ok false := by
    cases order_side <;> rfl
  refine ⟨hcs, ?_, ?_⟩
  · intro h
    simp [Alpaca.place_order_gate, hcs, Alpaca.check_market_status, h]
  · intro h
    refine ⟨?_, ?_, ?_⟩ <;> intro hh <;> subst hh <;>
      simp [Alpaca.place_order_gate, hcs, Alpaca.check_market_status, h]

/-- Witness for C7: a sell order with the market closed and
`market_close_handle = "raise"`, offset 2 minutes — the sell-all check
passes through without raising and the gate raises before
submission. -/
theorem place_order_market_gate_witness :
    Alpaca.check_sell_all_order OrderSide.sell = Except.ok false ∧
    Alpaca.place_order_gate OrderSide.sell false 0 3600 "raise" 2
      = Except.error marketClosedError :=
  ⟨(place_order_market_gate OrderSide.sell false 0 3600 "raise" 2).1,
   (((place_order_market_gate OrderSide.sell false 0 3600 "raise" 2).2.2)
     (by simp)).1 rfl⟩

/-! ### Claim C8 -/

/-- C8: every invalid combination (negative quantity, present negative
limit/stop price, limit order without limit price, stop order without
stop price, stop-limit order missing either price) makes construction
fail with a validation error, and every successfully constructed order
has a non-negative quantity and the price fields its type requires. -/
theorem order_construction_validates (o : Order) :
    ((o.quantity < 0 ∨
      (∃ lp, o.limit_price = some lp ∧ lp < 0) ∨
      (∃ sp, o.stop_price = some sp ∧ sp < 0) ∨
      (o.order_type = OrderType.limit ∧ o.limit_price = none) ∨
      (o.order_type = OrderType.stop ∧ o.stop_price = none) ∨
      (o.order_type = OrderType.stop_limit ∧
        (o.stop_price = none ∨ o.limit_price = none))) →
      ∃ e, mkOrder o = Except.error e) ∧
    (∀ o', mkOrder o = Except.ok o' →
      o' = o ∧ 0 ≤ o'.quantity ∧
      (o'.order_type = OrderType.limit → o'.limit_price ≠ none) ∧
      (o'.order_type = OrderType.stop → o'.stop_price ≠ none) ∧
      (o'.order_type = OrderType.stop_limit →
        o'.stop_price ≠ none ∧ o'.limit_price ≠ none)) := by
  have hok : ∀ u, o.validate = Except.ok u →
      ¬o.quantity < 0 ∧ optNeg o.limit_price = false ∧
      optNeg o.stop_price = false ∧
      ¬(o.order_type = OrderType.limit ∧ o.limit_price = none) ∧
      ¬(o.order_type = OrderType.stop ∧ o.stop_price = none) ∧
      ¬(o.order_type = OrderType.stop_limit ∧
        (o.stop_price = none ∨ o.limit_price = none)) := by
    intro u h
    unfold Order.validate at h
    split_ifs at h with h1 h2 h3 h4 h5 h6
    simp_all
  constructor
  · intro hbad
    cases hv : o.validate with
    | error e => exact ⟨e, by simp [mkOrder, hv]⟩
    | ok u =>
      exfalso
      obtain ⟨n1, n2, n3, n4, n5, n6⟩ := hok u hv
      rcases hbad with hb | ⟨lp, hlp, hneg⟩ | ⟨sp, hsp, hneg⟩ | hb | hb | hb
      · exact n1 hb
      · rw [hlp] at n2
        simp [optNeg, hneg] at n2
      · rw [hsp] at n3
        simp [optNeg, hneg] at n3
      · exact n4 hb
      · exact n5 hb
      · exact n6 hb
  · intro o' h
    cases hv : o.validate with
    | error e => rw [mkOrder, hv] at h; cases h
    | ok u =>
      rw [mkOrder, hv] at h
      obtain rfl : o = o' := by cases h; rfl
      obtain ⟨n1, _, _, n4, n5, n6⟩ := hok u hv
      refine ⟨rfl, not_lt.mp n1, ?_, ?_, ?_⟩
      · intro ht hnone
        exact n4 ⟨ht, hnone⟩
      · intro ht hnone
        exact n5 ⟨ht, hnone⟩
      · intro ht
        constructor
        · intro hnone
          exact n6 ⟨ht, Or.inl hnone⟩
        · intro hnone
          exact n6 ⟨ht, Or.inr hnone⟩

/-- Witness for C8: an order with quantity `-10` fails construction; a
limit order with a limit price constructs and satisfies the
invariants. -/
theorem order_construction_validates_witness :
    (∃ e, mkOrder ⟨"AAPL", -10, OrderSide.buy, QuantityMode.notional,
        OrderType.market, none, none⟩ = Except.error e) ∧
    (⟨"AAPL", 100, OrderSide.buy, QuantityMode.notional, OrderType.limit,
        none, some 150⟩ : Order)
      = ⟨"AAPL", 100, OrderSide.buy, QuantityMode.notional,
          OrderType.limit, none, some 150⟩ ∧
    (0 : ℚ) ≤ Order.quantity ⟨"AAPL", 100, OrderSide.buy,
        QuantityMode.notional, OrderType.limit, none, some 150⟩ ∧
    (Order.order_type ⟨"AAPL", 100, OrderSide.buy, QuantityMode.notional,
        OrderType.limit, none, some 150⟩ = OrderType.limit →
      Order.limit_price ⟨"AAPL", 100, OrderSide.buy,
        QuantityMode.notional, OrderType.limit, none, some 150⟩ ≠ none) ∧
    (Order.order_type ⟨"AAPL", 100, OrderSide.buy, QuantityMode.notional,
        OrderType.limit, none, some 150⟩ = OrderType.stop →
      Order.stop_price ⟨"AAPL", 100, OrderSide.buy, QuantityMode.notional,
        OrderType.limit, none, some 150⟩ ≠ none) ∧
    (Order.order_type ⟨"AAPL", 100, OrderSide.buy, QuantityMode.notional,
        OrderType.limit, none, some 150⟩ = OrderType.stop_limit →
      Order.stop_price ⟨"AAPL", 100, OrderSide.buy, QuantityMode.notional,
          OrderType.limit, none, some 150⟩ ≠ none ∧
      Order.limit_price ⟨"AAPL", 100, OrderSide.buy, QuantityMode.notional,
          OrderType.limit, none, some 150⟩ ≠ none) :=
  ⟨(order_construction_validates _).1 (Or.inl (by norm_num)),
   (order_construction_validates
     ⟨"AAPL", 100, OrderSide.buy, QuantityMode.notional, OrderType.limit,
       none, some 150⟩).2 _ (by rfl)⟩

/-! ### Claim C9 -/

/-- C9: updating a position with a sell trade decreases the quantity by
the executed quantity, leaves the asset and metadata unchanged, and
resets the average price to 0 exactly when the resulting quantity is
0 (leaving it unchanged otherwise). -/
theorem position_update_sell (p : Position) (t : Trade)
    (h : t.order.order_side = OrderSide.sell) :
    Position.update p t = Except.ok
      { symbol := p.symbol
        quantity := p.quantity - t.execution_quantity
        average_price :=
          if p.quantity - t.execution_quantity = 0 then 0
          else p.average_price
        metadata := p.metadata } := by
  have hne : t.order.order_side ≠ OrderSide.buy := by
    rw [h]
    intro hh
    cases hh
  simp [Position.update, hne]

/-- Witness for C9: selling 4 out of 10 shares leaves 6 shares at the
untouched average price. -/
theorem position_update_sell_witness :
    Position.update ⟨"AAPL", 10, 150, []⟩
      ⟨⟨"AAPL", 4, OrderSide.sell, QuantityMode.shares, OrderType.market,
          none, none⟩, 100, 4, 0⟩
      = Except.ok ⟨"AAPL", 10 - 4,
          if (10 : ℚ) - 4 = 0 then 0 else 150, []⟩ :=
  position_update_sell _ _ rfl

/-! ### Claim C10 -/

/-- C10: in the sandbox backend a sell credits
`execution_price * execution_quantity + fees` to the cash balance (the
fee is added to, not subtracted from, the proceeds), while a buy debits
the same amount. -/
theorem sandbox_update_cash_side (cash : ℚ) (t : Trade) :
    (t.order.order_side = OrderSide.sell →
      SandboxBackend.update_cash cash t
        = cash + (t.execution_price * t.execution_quantity + t.fees)) ∧
    (t.order.order_side = OrderSide.buy →
      SandboxBackend.update_cash cash t
        = cash - (t.execution_price * t.execution_quantity + t.fees)) := by
  constructor
  · intro h
    have hne : t.order.order_side ≠ OrderSide.buy := by
      rw [h]
      intro hh
      cases hh
    simp [SandboxBackend.update_cash, hne]
  · intro h
    simp [SandboxBackend.update_cash, h]

/-- Witness for C10: selling 4 units at 100 with fee 1 credits 401. -/
theorem sandbox_update_cash_side_witness :
    SandboxBackend.update_cash 1000
      ⟨⟨"AAPL", 4, OrderSide.sell, QuantityMode.shares, OrderType.market,
          none, none⟩, 100, 4, 1⟩
      = 1000 + (100 * 4 + 1) :=
  (sandbox_update_cash_side 1000 _).1 rfl

end TradeLib
